import Mathlib

/-!
Verification of the suspension-component model (src/components.py):
ControlArm, Rocker, Shock and the LongAccel aggregate, over a shallow
embedding in exact real arithmetic.  The vector / reference-frame layer
(the "dynamics" module) is not part of the shown source; it is modelled
from the specification as noted on each of its definitions.
-/

noncomputable section

/-- Modelled from the spec: the "dynamics" vector layer (not under src/).
A point in 3-space with components in the owning frame. -/
@[ext]
structure Vec3 where
  x : ℝ
  y : ℝ
  z : ℝ

/-- Modelled from the spec: componentwise vector addition. -/
def Vec3.add (a b : Vec3) : Vec3 :=
  ⟨a.x + b.x, a.y + b.y, a.z + b.z⟩

/-- Modelled from the spec: vector subtraction, self minus argument. -/
def Vec3.subtract (a b : Vec3) : Vec3 :=
  ⟨a.x - b.x, a.y - b.y, a.z - b.z⟩

/-- Dot product helper for the matrix algebra. -/
def Vec3.dot (a b : Vec3) : ℝ :=
  a.x * b.x + a.y * b.y + a.z * b.z

/-- Modelled from the spec: the cross product of the vector layer. -/
def Vec3.cross (a b : Vec3) : Vec3 :=
  ⟨a.y * b.z - a.z * b.y, a.z * b.x - a.x * b.z, a.x * b.y - a.y * b.x⟩

/-- Squared Euclidean norm. -/
def Vec3.normSq (v : Vec3) : ℝ :=
  v.x ^ 2 + v.y ^ 2 + v.z ^ 2

/-- Modelled from the spec: Euclidean norm of the vector layer. -/
def Vec3.norm (v : Vec3) : ℝ :=
  Real.sqrt v.normSq

/-- Modelled from the spec: unit vector in the direction of v. -/
def Vec3.unit (v : Vec3) : Vec3 :=
  ⟨v.x / v.norm, v.y / v.norm, v.z / v.norm⟩

/-- Modelled from the spec: a 3 by 3 real matrix of the rotation algebra,
stored as three rows. -/
@[ext]
structure Mat3 where
  r0 : Vec3
  r1 : Vec3
  r2 : Vec3

/-- First column of a matrix. -/
def Mat3.col0 (m : Mat3) : Vec3 := ⟨m.r0.x, m.r1.x, m.r2.x⟩

/-- Second column of a matrix. -/
def Mat3.col1 (m : Mat3) : Vec3 := ⟨m.r0.y, m.r1.y, m.r2.y⟩

/-- Third column of a matrix. -/
def Mat3.col2 (m : Mat3) : Vec3 := ⟨m.r0.z, m.r1.z, m.r2.z⟩

/-- Matrix-vector product. -/
def Mat3.mulVec (m : Mat3) (v : Vec3) : Vec3 :=
  ⟨m.r0.dot v, m.r1.dot v, m.r2.dot v⟩

/-- Matrix-matrix product. -/
def Mat3.mul (m n : Mat3) : Mat3 :=
  ⟨⟨m.r0.dot n.col0, m.r0.dot n.col1, m.r0.dot n.col2⟩,
   ⟨m.r1.dot n.col0, m.r1.dot n.col1, m.r1.dot n.col2⟩,
   ⟨m.r2.dot n.col0, m.r2.dot n.col1, m.r2.dot n.col2⟩⟩

/-- Transpose. -/
def Mat3.transpose (m : Mat3) : Mat3 :=
  ⟨⟨m.r0.x, m.r1.x, m.r2.x⟩, ⟨m.r0.y, m.r1.y, m.r2.y⟩, ⟨m.r0.z, m.r1.z, m.r2.z⟩⟩

/-- Identity matrix. -/
def Mat3.id : Mat3 :=
  ⟨⟨1, 0, 0⟩, ⟨0, 1, 0⟩, ⟨0, 0, 1⟩⟩

/-- Determinant. -/
def Mat3.det (m : Mat3) : ℝ :=
  m.r0.x * (m.r1.y * m.r2.z - m.r1.z * m.r2.y)
    - m.r0.y * (m.r1.x * m.r2.z - m.r1.z * m.r2.x)
    + m.r0.z * (m.r1.x * m.r2.y - m.r1.y * m.r2.x)

/-- Modelled from the spec: the matrix inverse used as
`frame.get_rotation() ** -1` (adjugate over determinant). -/
def Mat3.inv (m : Mat3) : Mat3 :=
  let d := m.det
  ⟨⟨(m.r1.y * m.r2.z - m.r1.z * m.r2.y) / d,
    -(m.r0.y * m.r2.z - m.r0.z * m.r2.y) / d,
    (m.r0.y * m.r1.z - m.r0.z * m.r1.y) / d⟩,
   ⟨-(m.r1.x * m.r2.z - m.r1.z * m.r2.x) / d,
    (m.r0.x * m.r2.z - m.r0.z * m.r2.x) / d,
    -(m.r0.x * m.r1.z - m.r0.z * m.r1.x) / d⟩,
   ⟨(m.r1.x * m.r2.y - m.r1.y * m.r2.x) / d,
    -(m.r0.x * m.r2.y - m.r0.y * m.r2.x) / d,
    (m.r0.x * m.r1.y - m.r0.y * m.r1.x) / d⟩⟩

/-- Rotation axis label passed to the rotation-matrix constructor. -/
inductive Axis
  | x
  | y
  | z

/-- Angle conversion: degrees to radians when the deg flag is set. -/
def toRadians (a : ℝ) (deg : Bool) : ℝ :=
  if deg then a * Real.pi / 180 else a

/-- Right-handed rotation matrix about a coordinate axis, angle in radians. -/
def rotAxis (t : ℝ) : Axis → Mat3
  | Axis.x => ⟨⟨1, 0, 0⟩,
               ⟨0, Real.cos t, -Real.sin t⟩,
               ⟨0, Real.sin t, Real.cos t⟩⟩
  | Axis.y => ⟨⟨Real.cos t, 0, Real.sin t⟩,
               ⟨0, 1, 0⟩,
               ⟨-Real.sin t, 0, Real.cos t⟩⟩
  | Axis.z => ⟨⟨Real.cos t, -Real.sin t, 0⟩,
               ⟨Real.sin t, Real.cos t, 0⟩,
               ⟨0, 0, 1⟩⟩

/-- Modelled from the spec: `make_rotation(a, axis, deg)` of the dynamics
layer — rotation matrix for a given axis label and angle, with a
degrees/radians flag. -/
def makeRotation (a : ℝ) (ax : Axis) (deg : Bool) : Mat3 :=
  rotAxis (toRadians a deg) ax

/-- Modelled from the spec: `dynamics.RefFrame` (not under src/).  Per the
data model a local frame holds an orientation relative to its parent and a
fixed origin that never moves — only the orientation is replaced by the
rotation update.  A non-trivial origin is required for the code to be
non-degenerate: the moment balance takes the shock direction along the
parent-frame position of the shock hardpoint, and `rotate_ca` rebuilds
parent coordinates as `get_pi_p() + R * v`. -/
structure RefFrame where
  origin : Vec3
  rot : Mat3

/-- Modelled from the spec: `get_coords(v, parent)` — coordinates of a local
vector in the parent frame, `origin + R * v`. -/
def RefFrame.coords (fr : RefFrame) (v : Vec3) : Vec3 :=
  fr.origin.add (fr.rot.mulVec v)

/-- ControlArm state: rear, upright and optional push/pullrod hardpoints in
local coordinates, the owning frame, and the side marker string
(src/components.py lines 38-57). -/
structure ControlArm where
  r_l : Vec3
  u_l : Vec3
  frame : RefFrame
  p_l : Option Vec3
  side : String

/-- Front hardpoint: always the local origin (constructor line 52). -/
def ControlArm.f_l (_ : ControlArm) : Vec3 := ⟨0, 0, 0⟩

/-- ASCII lowercasing of a string, modelling the Python str.lower call on
the one-letter side markers. -/
def strLower (s : String) : String :=
  String.mk (s.data.map Char.toLower)

/-- ControlArm constructor (lines 38-57): validates the lowercased side
marker, stores the side string as given. -/
def mkControlArm (rear upright : Vec3) (frame : RefFrame) (prod : Option Vec3)
    (side : String) : Except String ControlArm :=
  if strLower side ≠ "r" ∧ strLower side ≠ "l" then Except.error "invalid side"
  else Except.ok ⟨rear, upright, frame, prod, side⟩

/-- Front hardpoint in parent coordinates. -/
def ControlArm.get_f_p (ca : ControlArm) : Vec3 := ca.frame.coords ca.f_l

/-- Rear hardpoint in parent coordinates. -/
def ControlArm.get_r_p (ca : ControlArm) : Vec3 := ca.frame.coords ca.r_l

/-- Upright hardpoint in parent coordinates. -/
def ControlArm.get_u_p (ca : ControlArm) : Vec3 := ca.frame.coords ca.u_l

/-- Push/pullrod hardpoint in parent coordinates; error when the arm was
built without one (lines 83-93). -/
def ControlArm.get_p_p (ca : ControlArm) : Except String Vec3 :=
  match ca.p_l with
  | none => Except.error "no push/pullrod hardpoint"
  | some p => Except.ok (ca.frame.coords p)

/-- Upwards rotation of the control arm about its local x-axis
(lines 112-123): the angle is negated when the stored side string equals
"r", and the frame orientation is right-multiplied by the new local
rotation. -/
def ControlArm.rotate (ca : ControlArm) (a : ℝ) (deg : Bool) : ControlArm :=
  let a' := if ca.side = "r" then -a else a
  { ca with frame := { ca.frame with
      rot := ca.frame.rot.mul (makeRotation a' Axis.x deg) } }

/-- Rocker state: arb, push/pullrod and shock hardpoints in local
coordinates plus the owning frame (lines 150-163). -/
structure Rocker where
  a_l : Vec3
  pr_l : Vec3
  s_l : Vec3
  frame : RefFrame

/-- Pivot hardpoint: always the local origin (constructor line 159). -/
def Rocker.pi_l (_ : Rocker) : Vec3 := ⟨0, 0, 0⟩

/-- Pivot hardpoint in parent coordinates. -/
def Rocker.get_pi_p (r : Rocker) : Vec3 := r.frame.coords r.pi_l

/-- Arb hardpoint in parent coordinates. -/
def Rocker.get_a_p (r : Rocker) : Vec3 := r.frame.coords r.a_l

/-- Push/pullrod hardpoint in parent coordinates. -/
def Rocker.get_pr_p (r : Rocker) : Vec3 := r.frame.coords r.pr_l

/-- Shock hardpoint in parent coordinates. -/
def Rocker.get_s_p (r : Rocker) : Vec3 := r.frame.coords r.s_l

/-- Counterclockwise rotation of the rocker about its local z-axis
(lines 197-206); no side flip. -/
def Rocker.rotate (r : Rocker) (a : ℝ) (deg : Bool) : Rocker :=
  { r with frame := { r.frame with
      rot := r.frame.rot.mul (makeRotation a Axis.z deg) } }

/-- Shock state: spring constant, initial length and initial force at ride
height (lines 224-233). -/
structure Shock where
  k : ℝ
  len : ℝ
  force : ℝ

/-- Linear spring law (lines 235-242). -/
def Shock.get_force (s : Shock) (new_len : ℝ) : ℝ :=
  s.force + s.k * (s.len - new_len)

/-- LongAccel aggregate state (lines 245-279). -/
structure LongAccel where
  ca : ControlArm
  rocker : Rocker
  shock : Shock
  prod : ℝ
  side : String

/-- The z-component of the push/pullrod moment arm about the rocker pivot,
as computed in `__make_shock` and `get_forces`: local rod hardpoint crossed
with the rod unit direction expressed in the rocker local frame, given the
parent-frame position `caP` of the control-arm rod hardpoint. -/
def mProdZ (r : Rocker) (caP : Vec3) : ℝ :=
  (r.pr_l.cross ((r.frame.rot.inv.mulVec (r.get_pr_p.subtract caP)).unit)).z

/-- The z-component of the shock moment arm about the rocker pivot, as
computed in `__make_shock` and `get_forces`: local shock hardpoint crossed
with the unit direction of the parent-frame shock hardpoint position
expressed in the rocker local frame. -/
def mShockZ (r : Rocker) : ℝ :=
  (r.s_l.cross ((r.frame.rot.inv.mulVec r.get_s_p).unit)).z

/-- `LongAccel.__make_shock` (lines 281-301): moment balance about the
rocker pivot converting the initial rod force into the initial shock force;
the only failure is a missing rod hardpoint on the control arm. -/
def makeShock (ca : ControlArm) (rocker : Rocker) (k f_prod : ℝ) :
    Except String Shock :=
  match ca.get_p_p with
  | Except.error e => Except.error e
  | Except.ok caP =>
    let length := rocker.get_s_p.norm
    let r_l_p := rocker.frame.rot.inv
    let l_prod := r_l_p.mulVec (rocker.get_pr_p.subtract caP)
    let n_prod := l_prod.unit
    let l_shock := r_l_p.mulVec rocker.get_s_p
    let n_shock := l_shock.unit
    let m_prod := rocker.pr_l.cross n_prod
    let m_shock := rocker.s_l.cross n_shock
    Except.ok ⟨k, length, -f_prod * m_prod.z / m_shock.z⟩

/-- `LongAccel.__init__` (lines 266-279): build the shock by moment balance,
store the fixed rod length and copy the side marker. -/
def mkLongAccel (ca : ControlArm) (r : Rocker) (k f_prod : ℝ) :
    Except String LongAccel :=
  match makeShock ca r k f_prod with
  | Except.error e => Except.error e
  | Except.ok s =>
    match ca.get_p_p with
    | Except.error e => Except.error e
    | Except.ok caP =>
      Except.ok ⟨ca, r, s, (r.get_pr_p.subtract caP).norm, ca.side⟩

/-- The state after `rotate_ca(a, deg)` when the root-finder returned the
angle `sol` (lines 303-322): the control arm is rotated by `a` and the
rocker by `sol` radians. -/
def LongAccel.rotateCAState (la : LongAccel) (a : ℝ) (deg : Bool) (sol : ℝ) :
    LongAccel :=
  { la with ca := la.ca.rotate a deg, rocker := la.rocker.rotate sol false }

/-- The scalar residual handed to the root-finder in `rotate_ca`
(lines 311-319), as a function of the candidate rocker angle `x`, given the
parent-frame position `caP` of the already-rotated control-arm rod
hardpoint: squared distance between the rod hardpoints minus the squared
fixed rod length. -/
def LongAccel.rotateCAResidualAt (la : LongAccel) (caP : Vec3) (x : ℝ) : ℝ :=
  let r_p_n := la.rocker.frame.rot.mul (makeRotation x Axis.z false)
  let pr_p := la.rocker.get_pi_p.add (r_p_n.mulVec la.rocker.pr_l)
  let pr_len := pr_p.subtract caP
  pr_len.x ^ 2 + pr_len.y ^ 2 + pr_len.z ^ 2 - la.prod ^ 2

/-- `LongAccel.get_forces` (lines 324-343): current shock force from the
spring law at the current shock length, then the reverse moment balance for
the rod force. -/
def LongAccel.get_forces (la : LongAccel) : Except String (ℝ × ℝ) :=
  match la.ca.get_p_p with
  | Except.error e => Except.error e
  | Except.ok caP =>
    let pr_p := la.rocker.get_pr_p
    let s_p := la.rocker.get_s_p
    let r_l_p := la.rocker.frame.rot.inv
    let l_prod := r_l_p.mulVec (pr_p.subtract caP)
    let n_prod := l_prod.unit
    let l_shock := r_l_p.mulVec s_p
    let n_shock := l_shock.unit
    let m_prod := la.rocker.pr_l.cross n_prod
    let m_shock := la.rocker.s_l.cross n_shock
    let length := s_p.norm
    let f_shock := la.shock.get_force length
    Except.ok (f_shock, -f_shock * m_shock.z / m_prod.z)

/-- A frame at the parent origin with identity orientation. -/
def frameI : RefFrame := ⟨⟨0, 0, 0⟩, Mat3.id⟩

/-- A rocker frame with identity orientation placed away from the parent
origin. -/
def frameR : RefFrame := ⟨⟨0, 1, 2⟩, Mat3.id⟩

/-- Concrete left-side control arm used by the witnesses. -/
def caW : ControlArm := ⟨⟨-1, 0, 0⟩, ⟨0, 1, 0⟩, frameI, some ⟨1, 0, 0⟩, "l"⟩

/-- Concrete rocker used by the witnesses. -/
def rockerW : Rocker := ⟨⟨0, 0, 1⟩, ⟨0, 1, 0⟩, ⟨1, 1, 0⟩, frameR⟩

/-- The LongAccel aggregate built from caW and rockerW with stiffness 100
and initial rod force 10. -/
def laW : LongAccel := ⟨caW, rockerW, ⟨100, 3, -10⟩, 3, "l"⟩

/-- A degenerate rocker whose shock direction passes through the pivot
axis: frame at the parent origin, so the shock moment arm vanishes. -/
def rockerD : Rocker := ⟨⟨0, 0, 1⟩, ⟨0, 1, 0⟩, ⟨1, 0, 0⟩, frameI⟩

/-- A control arm constructed with the accepted side spelling "R". -/
def caR4 : ControlArm := ⟨⟨-1, 0, 0⟩, ⟨0, 1, 0⟩, frameI, some ⟨1, 0, 0⟩, "R"⟩

/-- A control arm built without a push/pullrod hardpoint. -/
def caN8 : ControlArm := ⟨⟨-1, 0, 0⟩, ⟨0, 1, 0⟩, frameI, none, "l"⟩

/-- Right multiplication by the identity. -/
theorem Mat3.mul_id (m : Mat3) : m.mul Mat3.id = m := by
  ext <;> simp [Mat3.mul, Mat3.id, Mat3.col0, Mat3.col1, Mat3.col2, Vec3.dot]

/-- Matrix multiplication is associative. -/
theorem Mat3.mul_assoc (m n p : Mat3) : (m.mul n).mul p = m.mul (n.mul p) := by
  ext <;> simp [Mat3.mul, Mat3.col0, Mat3.col1, Mat3.col2, Vec3.dot] <;> ring

/-- The inverse of the identity matrix is the identity. -/
theorem Mat3.inv_id : Mat3.id.inv = Mat3.id := by
  ext <;> simp [Mat3.inv, Mat3.det, Mat3.id]

/-- Negating the angle commutes with the degree conversion. -/
theorem toRadians_neg (a : ℝ) (deg : Bool) :
    toRadians (-a) deg = -toRadians a deg := by
  cases deg <;> simp [toRadians] <;> ring

/-- The axis rotation at the negated angle is the transpose. -/
theorem rotAxis_neg (t : ℝ) (ax : Axis) :
    rotAxis (-t) ax = (rotAxis t ax).transpose := by
  cases ax <;> ext <;> simp [rotAxis, Mat3.transpose]

/-- An axis rotation composed with the rotation at the negated angle is the
identity. -/
theorem rotAxis_mul_neg (t : ℝ) (ax : Axis) :
    (rotAxis t ax).mul (rotAxis (-t) ax) = Mat3.id := by
  cases ax <;> ext <;>
    simp [rotAxis, Mat3.mul, Mat3.id, Mat3.col0, Mat3.col1, Mat3.col2, Vec3.dot] <;>
    first
    | ring1
    | linear_combination Real.sin_sq_add_cos_sq t

/-- The rotation at the negated angle composed with the axis rotation is the
identity. -/
theorem rotAxis_neg_mul (t : ℝ) (ax : Axis) :
    (rotAxis (-t) ax).mul (rotAxis t ax) = Mat3.id := by
  have h := rotAxis_mul_neg (-t) ax
  rwa [neg_neg] at h

/-- make_rotation at the negated angle yields the transposed matrix. -/
theorem makeRotation_neg (a : ℝ) (ax : Axis) (deg : Bool) :
    makeRotation (-a) ax deg = (makeRotation a ax deg).transpose := by
  unfold makeRotation
  rw [toRadians_neg, rotAxis_neg]

/-- make_rotation composed with make_rotation at the negated angle is the
identity. -/
theorem makeRotation_mul_neg (a : ℝ) (ax : Axis) (deg : Bool) :
    (makeRotation a ax deg).mul (makeRotation (-a) ax deg) = Mat3.id := by
  unfold makeRotation
  rw [toRadians_neg, rotAxis_mul_neg]

/-- make_rotation at the negated angle composed with make_rotation is the
identity. -/
theorem makeRotation_neg_mul (a : ℝ) (ax : Axis) (deg : Bool) :
    (makeRotation (-a) ax deg).mul (makeRotation a ax deg) = Mat3.id := by
  unfold makeRotation
  rw [toRadians_neg, rotAxis_neg_mul]

/-- C7: for every stiffness k, reference length L0 and reference force F0,
the spring returns exactly F0 at length L0, returns F0 + k*d at length
L0 - d, and in general force(len) = F0 + k*(L0 - len). -/
theorem shock_get_force_linear (k L0 F0 len d : ℝ) :
    (Shock.mk k L0 F0).get_force L0 = F0 ∧
    (Shock.mk k L0 F0).get_force (L0 - d) = F0 + k * d ∧
    (Shock.mk k L0 F0).get_force len = F0 + k * (L0 - len) := by
  unfold Shock.get_force
  exact ⟨by ring, by ring, by ring⟩

/-- C4 (corrected): the control-arm rotate negates the angle exactly when
the stored side string is precisely "r" — composing the frame orientation
with the transposed (inverse) rotation — and for any other stored side
string, including the accepted spelling "R" and the left-side spellings,
and for the rocker, the angle is applied unchanged. -/
theorem rotate_side_sign (ca : ControlArm) (r : Rocker) (a : ℝ) (deg : Bool) :
    (ca.rotate a deg).frame.rot =
      ca.frame.rot.mul (if ca.side = "r" then (makeRotation a Axis.x deg).transpose
        else makeRotation a Axis.x deg) ∧
    (r.rotate a deg).frame.rot = r.frame.rot.mul (makeRotation a Axis.z deg) := by
  constructor
  · unfold ControlArm.rotate
    by_cases h : ca.side = "r" <;> simp [h, makeRotation_neg]
  · rfl

/-- C4 counterexample: the side spelling "R" is accepted by the constructor
(its lowercasing is "r"), yet rotating that arm by 90 degrees does not
apply the negated angle. -/
theorem rotate_side_R_not_negated :
    strLower "R" = "r" ∧
    mkControlArm ⟨-1, 0, 0⟩ ⟨0, 1, 0⟩ frameI (some ⟨1, 0, 0⟩) "R" = Except.ok caR4 ∧
    (caR4.rotate 90 true).frame.rot ≠
      caR4.frame.rot.mul (makeRotation (-90) Axis.x true) := by
  refine ⟨by decide, ?_, ?_⟩
  · rw [mkControlArm, if_neg (by decide)]
    rfl
  · intro h
    have h2 := congrArg (fun m => m.r2.y) h
    simp only [ControlArm.rotate, caR4, frameI, makeRotation, toRadians,
      if_true, rotAxis, Mat3.id, Mat3.mul, Mat3.col0, Mat3.col1,
      Mat3.col2, Vec3.dot] at h2
    rw [if_neg (by decide : ¬("R" : String) = "r")] at h2
    have key : Real.sin ((90 : ℝ) * Real.pi / 180) = 1 := by
      rw [show (90 : ℝ) * Real.pi / 180 = Real.pi / 2 by ring]
      exact Real.sin_pi_div_two
    simp only [neg_mul, neg_div, Real.sin_neg, Real.cos_neg, key] at h2
    norm_num at h2

/-- C8: a control arm built by the constructor reports the
missing-rod-hardpoint error from get_p_p exactly when no rod hardpoint was
supplied; when one was supplied, get_p_p returns its transformed
parent-frame position without error. -/
theorem get_p_p_iff_rod (rear upright : Vec3) (frame : RefFrame)
    (prodOpt : Option Vec3) (side : String) (ca : ControlArm)
    (h : mkControlArm rear upright frame prodOpt side = Except.ok ca) :
    (prodOpt = none → ca.get_p_p = Except.error "no push/pullrod hardpoint") ∧
    (∀ p, prodOpt = some p → ca.get_p_p = Except.ok (frame.coords p)) := by
  unfold mkControlArm at h
  split at h
  · exact absurd h (by simp)
  · injection h with h2
    subst h2
    constructor
    · intro hn
      simp [ControlArm.get_p_p, hn]
    · intro p hp
      simp [ControlArm.get_p_p, hp]

/-- C8 witness: the concrete arm built without a rod hardpoint errors on
get_p_p. -/
theorem get_p_p_iff_rod_witness :
    caN8.get_p_p = Except.error "no push/pullrod hardpoint" :=
  (get_p_p_iff_rod ⟨-1, 0, 0⟩ ⟨0, 1, 0⟩ frameI none "l" caN8
    (by rw [mkControlArm, if_neg (by decide)]; rfl)).1 rfl

/-- C9: rotating a control arm by an angle and then by its negation, and
likewise a rocker, restores every parent-frame position (in exact real
arithmetic the round trip is exact). -/
theorem rotate_roundtrip (ca : ControlArm) (r : Rocker) (a : ℝ) (deg : Bool)
    (v w : Vec3) :
    ((ca.rotate a deg).rotate (-a) deg).frame.coords v = ca.frame.coords v ∧
    ((r.rotate a deg).rotate (-a) deg).frame.coords w = r.frame.coords w := by
  constructor
  · unfold ControlArm.rotate
    by_cases h : ca.side = "r" <;>
      simp [h, RefFrame.coords, Mat3.mul_assoc, makeRotation_mul_neg,
        makeRotation_neg_mul, Mat3.mul_id]
  · unfold Rocker.rotate
    simp [RefFrame.coords, Mat3.mul_assoc, makeRotation_mul_neg, Mat3.mul_id]

/-- C10: constructing a LongAccel aggregate returns the control arm and the
rocker exactly as supplied — frames, orientations and hardpoints unchanged;
the constructor only reads them. -/
theorem mkLongAccel_preserves_links (ca : ControlArm) (r : Rocker) (k f : ℝ)
    (la : LongAccel) (h : mkLongAccel ca r k f = Except.ok la) :
    la.ca = ca ∧ la.rocker = r := by
  unfold mkLongAccel at h
  split at h
  · exact absurd h (by simp)
  · split at h
    · exact absurd h (by simp)
    · injection h with h2
      subst h2
      exact ⟨rfl, rfl⟩

/-- The square root of nine. -/
theorem sqrt_nine : Real.sqrt 9 = 3 := by
  rw [show (9 : ℝ) = 3 ^ 2 by norm_num, Real.sqrt_sq (by norm_num : (0 : ℝ) ≤ 3)]

/-- Parent-frame rod hardpoint of the concrete control arm. -/
theorem caW_get_p_p : caW.get_p_p = Except.ok ⟨1, 0, 0⟩ := by
  norm_num [caW, ControlArm.get_p_p, frameI, RefFrame.coords, Mat3.id,
    Mat3.mulVec, Vec3.dot, Vec3.add, Vec3.mk.injEq]

/-- Parent-frame rod hardpoint of the concrete rocker. -/
theorem rockerW_pr_p : rockerW.get_pr_p = ⟨0, 2, 2⟩ := by
  norm_num [rockerW, Rocker.get_pr_p, frameR, RefFrame.coords, Mat3.id,
    Mat3.mulVec, Vec3.dot, Vec3.add, Vec3.mk.injEq]

/-- Parent-frame shock hardpoint of the concrete rocker. -/
theorem rockerW_s_p : rockerW.get_s_p = ⟨1, 2, 2⟩ := by
  norm_num [rockerW, Rocker.get_s_p, frameR, RefFrame.coords, Mat3.id,
    Mat3.mulVec, Vec3.dot, Vec3.add, Vec3.mk.injEq]

/-- The identity matrix acts trivially on vectors. -/
theorem Mat3.id_mulVec (v : Vec3) : Mat3.id.mulVec v = v := by
  ext <;> simp [Mat3.id, Mat3.mulVec, Vec3.dot]

/-- The orientation of the concrete rocker frame. -/
theorem rockerW_rot : rockerW.frame.rot = Mat3.id := rfl

/-- The local rod hardpoint of the concrete rocker. -/
theorem rockerW_prl : rockerW.pr_l = ⟨0, 1, 0⟩ := rfl

/-- The local shock hardpoint of the concrete rocker. -/
theorem rockerW_sl : rockerW.s_l = ⟨1, 1, 0⟩ := rfl

/-- The moment balance of the concrete configuration. -/
theorem makeShock_caW_eval :
    makeShock caW rockerW 100 10 = Except.ok (Shock.mk 100 3 (-10)) := by
  unfold makeShock
  rw [caW_get_p_p]
  simp only [rockerW_pr_p, rockerW_s_p, rockerW_rot, rockerW_prl, rockerW_sl,
    Mat3.inv_id, Mat3.id_mulVec]
  norm_num [Vec3.subtract, Vec3.unit, Vec3.cross, Vec3.norm, Vec3.normSq,
    sqrt_nine, Shock.mk.injEq, Vec3.mk.injEq]

/-- Construction of the concrete LongAccel aggregate. -/
theorem mkLongAccel_caW_eval :
    mkLongAccel caW rockerW 100 10 = Except.ok laW := by
  unfold mkLongAccel
  rw [makeShock_caW_eval, caW_get_p_p]
  simp only [rockerW_pr_p]
  norm_num [laW, caW, Vec3.subtract, Vec3.norm, Vec3.normSq,
    sqrt_nine, LongAccel.mk.injEq, Vec3.mk.injEq]

/-- Projection of the concrete aggregate: control arm. -/
theorem laW_ca : laW.ca = caW := rfl

/-- Projection of the concrete aggregate: rocker. -/
theorem laW_rocker : laW.rocker = rockerW := rfl

/-- Projection of the concrete aggregate: fixed rod length. -/
theorem laW_prod : laW.prod = 3 := rfl

/-- The orientation of the degenerate rocker frame. -/
theorem rockerD_rot : rockerD.frame.rot = Mat3.id := rfl

/-- The local rod hardpoint of the degenerate rocker. -/
theorem rockerD_prl : rockerD.pr_l = ⟨0, 1, 0⟩ := rfl

/-- The local shock hardpoint of the degenerate rocker. -/
theorem rockerD_sl : rockerD.s_l = ⟨1, 0, 0⟩ := rfl

/-- Parent-frame rod hardpoint of the degenerate rocker. -/
theorem rockerD_pr_p : rockerD.get_pr_p = ⟨0, 1, 0⟩ := by
  norm_num [rockerD, Rocker.get_pr_p, frameI, RefFrame.coords, Mat3.id,
    Mat3.mulVec, Vec3.dot, Vec3.add, Vec3.mk.injEq]

/-- Parent-frame shock hardpoint of the degenerate rocker. -/
theorem rockerD_s_p : rockerD.get_s_p = ⟨1, 0, 0⟩ := by
  norm_num [rockerD, Rocker.get_s_p, frameI, RefFrame.coords, Mat3.id,
    Mat3.mulVec, Vec3.dot, Vec3.add, Vec3.mk.injEq]

/-- Evaluation of get_forces once the rod hardpoint query succeeds: the pair
is the spring force at the current shock length and the reverse moment
balance. -/
theorem get_forces_eval (la : LongAccel) (caP : Vec3)
    (hp : la.ca.get_p_p = Except.ok caP) :
    la.get_forces = Except.ok
      (la.shock.get_force la.rocker.get_s_p.norm,
       -la.shock.get_force la.rocker.get_s_p.norm * mShockZ la.rocker /
         mProdZ la.rocker caP) := by
  unfold LongAccel.get_forces mProdZ mShockZ
  rw [hp]

/-- C10 witness: the concrete construction returns its links unchanged. -/
theorem mkLongAccel_preserves_links_witness :
    laW.ca = caW ∧ laW.rocker = rockerW :=
  mkLongAccel_preserves_links caW rockerW 100 10 laW mkLongAccel_caW_eval

/-- C2: on an aggregate just constructed, with no rotation in between and
with non-zero rod and shock moment arms, get_forces returns the stored
shock reference force together with a rod force equal to the initial rod
force supplied to the constructor. -/
theorem get_forces_after_construction (ca : ControlArm) (r : Rocker)
    (k f : ℝ) (la : LongAccel) (caP : Vec3)
    (hp : ca.get_p_p = Except.ok caP)
    (hla : mkLongAccel ca r k f = Except.ok la)
    (hm1 : mProdZ r caP ≠ 0) (hm2 : mShockZ r ≠ 0) :
    la.get_forces = Except.ok (la.shock.force, f) := by
  unfold mkLongAccel makeShock at hla
  rw [hp] at hla
  simp only [Except.ok.injEq] at hla
  subst hla
  rw [get_forces_eval _ caP hp]
  unfold mProdZ at hm1
  unfold mShockZ at hm2
  unfold mProdZ mShockZ
  simp only [Except.ok.injEq, Prod.mk.injEq, Shock.get_force, sub_self,
    mul_zero, add_zero]
  refine ⟨trivial, ?_⟩
  field_simp

/-- The rod moment arm of the concrete configuration. -/
theorem mProdZ_rockerW : mProdZ rockerW ⟨1, 0, 0⟩ = 1 / 3 := by
  simp only [mProdZ, rockerW_pr_p, rockerW_rot, rockerW_prl, Mat3.inv_id,
    Mat3.id_mulVec]
  norm_num [Vec3.subtract, Vec3.unit, Vec3.cross, Vec3.norm, Vec3.normSq,
    sqrt_nine]

/-- The shock moment arm of the concrete configuration. -/
theorem mShockZ_rockerW : mShockZ rockerW = 1 / 3 := by
  simp only [mShockZ, rockerW_s_p, rockerW_rot, rockerW_sl, Mat3.inv_id,
    Mat3.id_mulVec]
  norm_num [Vec3.unit, Vec3.cross, Vec3.norm, Vec3.normSq, sqrt_nine]

/-- C2 witness: the concrete aggregate reproduces its initial rod force 10
from get_forces immediately after construction. -/
theorem get_forces_after_construction_witness :
    laW.get_forces = Except.ok (laW.shock.force, 10) :=
  get_forces_after_construction caW rockerW 100 10 laW ⟨1, 0, 0⟩ caW_get_p_p
    mkLongAccel_caW_eval (by rw [mProdZ_rockerW]; norm_num)
    (by rw [mShockZ_rockerW]; norm_num)

/-- C1: for an aggregate built by the constructor, for every rotation
request on which the root-finder returns an exact root of the residual, the
Euclidean distance in the parent frame between the rod hardpoint of the
rotated control arm and the rod hardpoint of the rotated rocker equals the
fixed rod length stored at construction. -/
theorem rotate_ca_preserves_rod_length (ca : ControlArm) (r : Rocker)
    (k f : ℝ) (la : LongAccel) (a sol : ℝ) (deg : Bool) (caP : Vec3)
    (hla : mkLongAccel ca r k f = Except.ok la)
    (hp : (la.ca.rotate a deg).get_p_p = Except.ok caP)
    (hres : la.rotateCAResidualAt caP sol = 0) :
    (la.rotateCAState a deg sol).ca.get_p_p = Except.ok caP ∧
    Vec3.norm ((la.rotateCAState a deg sol).rocker.get_pr_p.subtract caP) =
      la.prod := by
  have hprod : 0 ≤ la.prod := by
    unfold mkLongAccel at hla
    split at hla
    · exact absurd hla (by simp)
    · split at hla
      · exact absurd hla (by simp)
      · injection hla with h2
        subst h2
        exact Real.sqrt_nonneg _
  refine ⟨hp, ?_⟩
  have h2 : Vec3.normSq
      ((la.rotateCAState a deg sol).rocker.get_pr_p.subtract caP) =
      la.prod ^ 2 := by
    have h := hres
    simp only [LongAccel.rotateCAResidualAt, LongAccel.rotateCAState,
      Rocker.rotate, Rocker.get_pr_p, Rocker.get_pi_p, Rocker.pi_l,
      RefFrame.coords, Vec3.normSq, Mat3.mulVec, Mat3.mul, Mat3.col0,
      Mat3.col1, Mat3.col2, Vec3.dot, Vec3.add, Vec3.subtract] at h ⊢
    linear_combination h
  rw [Vec3.norm, h2, Real.sqrt_sq hprod]

/-- C1 witness: at the zero rotation the residual root zero is exact and
the rod hardpoint distance equals the stored rod length of the concrete
aggregate. -/
theorem rotate_ca_preserves_rod_length_witness :
    (laW.rotateCAState 0 false 0).ca.get_p_p = Except.ok ⟨1, 0, 0⟩ ∧
    Vec3.norm ((laW.rotateCAState 0 false 0).rocker.get_pr_p.subtract
      ⟨1, 0, 0⟩) = laW.prod :=
  rotate_ca_preserves_rod_length caW rockerW 100 10 laW 0 0 false ⟨1, 0, 0⟩
    mkLongAccel_caW_eval
    (by
      rw [laW_ca]
      rw [show caW.rotate 0 false = caW from by
        simp [ControlArm.rotate, caW, frameI, makeRotation, toRadians,
          rotAxis, Mat3.mul_id]
        ext <;> simp [Mat3.id, Mat3.mul, Mat3.col0, Mat3.col1, Mat3.col2,
          Vec3.dot]]
      exact caW_get_p_p)
    (by
      simp only [LongAccel.rotateCAResidualAt, laW_rocker, laW_prod,
        rockerW_rot, rockerW_prl, Rocker.get_pi_p, Rocker.pi_l]
      norm_num [rockerW, frameR, RefFrame.coords, makeRotation, toRadians,
        rotAxis, Mat3.id, Mat3.mul, Mat3.col0, Mat3.col1, Mat3.col2,
        Mat3.mulVec, Vec3.dot, Vec3.add, Vec3.subtract])

/-- C3 (corrected): when the rod hardpoint query succeeds, the spring is
instantiated with the given stiffness, with reference length equal to the
norm of the parent-frame position of the shock hardpoint (its distance
from the parent-frame origin), and with reference force
-f_rod * m_rod / m_shock from the moment balance; the reference length
coincides with the distance from the rocker pivot exactly when the rocker
frame origin sits at the parent origin. -/
theorem makeShock_formula (ca : ControlArm) (r : Rocker) (k f : ℝ)
    (caP : Vec3) (hp : ca.get_p_p = Except.ok caP) :
    makeShock ca r k f =
      Except.ok ⟨k, r.get_s_p.norm, -f * mProdZ r caP / mShockZ r⟩ ∧
    (r.frame.origin = ⟨0, 0, 0⟩ →
      r.get_s_p.norm = Vec3.norm (r.get_s_p.subtract r.get_pi_p)) := by
  constructor
  · unfold makeShock mProdZ mShockZ
    rw [hp]
  · intro h0
    simp [Rocker.get_pi_p, Rocker.pi_l, RefFrame.coords, h0, Mat3.mulVec,
      Vec3.dot, Vec3.add, Vec3.subtract]

/-- C3 witness: the concrete moment balance instantiates the spring with
the formula values. -/
theorem makeShock_formula_witness :
    makeShock caW rockerW 100 10 =
      Except.ok ⟨100, rockerW.get_s_p.norm,
        -10 * mProdZ rockerW ⟨1, 0, 0⟩ / mShockZ rockerW⟩ :=
  (makeShock_formula caW rockerW 100 10 ⟨1, 0, 0⟩ caW_get_p_p).1

/-- C3 counterexample: for the concrete aggregate the stored reference
length is 3, while the distance of the shock hardpoint from the rocker
pivot is the square root of 2 — the claim equating the two fails whenever
the rocker frame origin is away from the parent origin. -/
theorem makeShock_len_not_pivot_distance :
    Except.map (fun s => Shock.len s) (makeShock caW rockerW 100 10) =
      Except.ok 3 ∧
    (3 : ℝ) ≠ Vec3.norm (rockerW.get_s_p.subtract rockerW.get_pi_p) := by
  constructor
  · rw [makeShock_caW_eval]
    rfl
  · have h1 : rockerW.get_pi_p = ⟨0, 1, 2⟩ := by
      norm_num [rockerW, Rocker.get_pi_p, Rocker.pi_l, frameR,
        RefFrame.coords, Mat3.id, Mat3.mulVec, Vec3.dot, Vec3.add,
        Vec3.mk.injEq]
    rw [rockerW_s_p, h1]
    have h2 : Vec3.norm (Vec3.subtract ⟨1, 2, 2⟩ ⟨0, 1, 2⟩) = Real.sqrt 2 := by
      norm_num [Vec3.subtract, Vec3.norm, Vec3.normSq]
    rw [h2]
    have h3 : Real.sqrt 2 < 3 := by
      rw [show (3 : ℝ) = Real.sqrt 9 from sqrt_nine.symm]
      exact Real.sqrt_lt_sqrt (by norm_num) (by norm_num)
    intro h
    linarith

/-- C6 (evidence of the code bug): for a configuration whose shock moment
arm is exactly zero — the shock direction passes through the pivot axis —
the construction-time moment balance performs the division anyway and
returns a Shock value instead of reporting a singular configuration; in
the exact-arithmetic embedding the unguarded division by zero yields 0,
while the sympy computation propagates a non-finite value. -/
theorem makeShock_singular_unguarded :
    mShockZ rockerD = 0 ∧
    makeShock caW rockerD 100 10 = Except.ok (Shock.mk 100 1 0) := by
  constructor
  · simp only [mShockZ, rockerD_s_p, rockerD_rot, rockerD_sl, Mat3.inv_id,
      Mat3.id_mulVec]
    norm_num [Vec3.unit, Vec3.cross, Vec3.norm, Vec3.normSq]
  · unfold makeShock
    rw [caW_get_p_p]
    simp only [rockerD_pr_p, rockerD_s_p, rockerD_rot, rockerD_prl,
      rockerD_sl, Mat3.inv_id, Mat3.id_mulVec]
    norm_num [Vec3.subtract, Vec3.unit, Vec3.cross, Vec3.norm, Vec3.normSq,
      Real.sqrt_one, div_zero, Shock.mk.injEq, Vec3.mk.injEq]

end
